import Mathlib

/-!
Shallow embedding of the daily-motivational-quotes HTTP service
(`motivation_api/app.py`, `motivation_api/models.py`).

The store is modelled as a list of quote records plus an auto-increment
counter; route handlers are pure functions from the request data and a
store snapshot to a `(Response, Store)` pair.  The wall clock enters as
explicit parameters (`now` for the envelope timestamp, a `DateTime` for
the quote-of-the-day selection), and randomness for `/api/v1/quote` is
an explicit entropy parameter.  SHA-256 is implemented from FIPS 180-4,
operating on byte lists with 32-bit words represented as `Nat` reduced
modulo `2 ^ 32`.
-/

namespace Motivation

/-! ### SHA-256 (as used by `hashlib.sha256` in `get_qotd`) -/

def w32 : Nat := 4294967296

def add32 (a b : Nat) : Nat := (a + b) % w32

def rotr (n x : Nat) : Nat := ((x >>> n) ||| (x <<< (32 - n))) % w32

def bigSigma0 (x : Nat) : Nat := rotr 2 x ^^^ rotr 13 x ^^^ rotr 22 x

def bigSigma1 (x : Nat) : Nat := rotr 6 x ^^^ rotr 11 x ^^^ rotr 25 x

def smallSigma0 (x : Nat) : Nat := rotr 7 x ^^^ rotr 18 x ^^^ (x >>> 3)

def smallSigma1 (x : Nat) : Nat := rotr 17 x ^^^ rotr 19 x ^^^ (x >>> 10)

def chWord (x y z : Nat) : Nat := (x &&& y) ^^^ ((x ^^^ (w32 - 1)) &&& z)

def majWord (x y z : Nat) : Nat := (x &&& y) ^^^ (x &&& z) ^^^ (y &&& z)

/-- The 64 SHA-256 round constants. -/
def sha256K : List Nat :=
  [1116352408, 1899447441, 3049323471, 3921009573, 961987163,
   1508970993, 2453635748, 2870763221, 3624381080, 310598401,
   607225278, 1426881987, 1925078388, 2162078206, 2614888103,
   3248222580, 3835390401, 4022224774, 264347078, 604807628,
   770255983, 1249150122, 1555081692, 1996064986, 2554220882,
   2821834349, 2952996808, 3210313671, 3336571891, 3584528711,
   113926993, 338241895, 666307205, 773529912, 1294757372,
   1396182291, 1695183700, 1986661051, 2177026350, 2456956037,
   2730485921, 2820302411, 3259730800, 3345764771, 3516065817,
   3600352804, 4094571909, 275423344, 430227734, 506948616,
   659060556, 883997877, 958139571, 1322822218, 1537002063,
   1747873779, 1955562222, 2024104815, 2227730452, 2361852424,
   2428436474, 2756734187, 3204031479, 3329325298]

/-- Initial hash value `H⁽⁰⁾`. -/
def sha256H0 : List Nat :=
  [1779033703, 3144134277, 1013904242,
   2773480762, 1359893119, 2600822924,
   528734635, 1541459225]

/-- Group a byte list into big-endian 32-bit words. -/
def bytesToWords : List Nat → List Nat
  | b0 :: b1 :: b2 :: b3 :: rest =>
      (((b0 * 256 + b1) * 256 + b2) * 256 + b3) :: bytesToWords rest
  | _ => []

/-- Extend the 16-word schedule to 64 words (runs `n` extension steps). -/
def extendSchedule : Nat → List Nat → List Nat
  | 0, ws => ws
  | n + 1, ws =>
      let t := ws.length
      let w :=
        add32 (add32 (smallSigma1 (ws.getD (t - 2) 0)) (ws.getD (t - 7) 0))
          (add32 (smallSigma0 (ws.getD (t - 15) 0)) (ws.getD (t - 16) 0))
      extendSchedule n (ws ++ [w])

/-- One compression round, acting on the working variables `[a,…,h]`. -/
def roundStep (st : List Nat) (kw : Nat × Nat) : List Nat :=
  match st with
  | [a, b, c, d, e, f, g, h] =>
      let t1 := add32 (add32 (add32 h (bigSigma1 e)) (add32 (chWord e f g) kw.1)) kw.2
      let t2 := add32 (bigSigma0 a) (majWord a b c)
      [add32 t1 t2, a, b, c, add32 d t1, e, f, g]
  | st => st

/-- Compress one 64-byte block into the running hash. -/
def compressBlock (hv : List Nat) (block : List Nat) : List Nat :=
  let ws := extendSchedule 48 (bytesToWords block)
  let st := (sha256K.zip ws).foldl roundStep hv
  (hv.zip st).map fun p => add32 p.1 p.2

/-- Split a list into 64-byte chunks (`fuel` bounds the recursion). -/
def chunks64 : Nat → List Nat → List (List Nat)
  | 0, _ => []
  | _ + 1, [] => []
  | fuel + 1, l => l.take 64 :: chunks64 fuel (l.drop 64)

/-- FIPS 180-4 padding: `0x80`, zeros, then the bit length as 8 big-endian bytes. -/
def sha256Pad (msg : List Nat) : List Nat :=
  let len := msg.length
  let zeros := (119 - len % 64) % 64
  let bits := len * 8
  msg ++ [0x80] ++ List.replicate zeros 0 ++
    [bits >>> 56 &&& 255, bits >>> 48 &&& 255, bits >>> 40 &&& 255,
     bits >>> 32 &&& 255, bits >>> 24 &&& 255, bits >>> 16 &&& 255,
     bits >>> 8 &&& 255, bits &&& 255]

/-- SHA-256 digest of a byte list, read as a big-endian natural number
(equal to Python's `int(hashlib.sha256(msg).hexdigest(), 16)`). -/
def sha256 (msg : List Nat) : Nat :=
  let padded := sha256Pad msg
  let hv := (chunks64 padded.length padded).foldl compressBlock sha256H0
  hv.foldl (fun acc h => acc * w32 + h) 0

/-- UTF-8 bytes of an ASCII string (all strings hashed here are ASCII dates). -/
def asciiBytes (s : String) : List Nat := s.data.map Char.toNat

/-! ### Data model (`models.py`) and store state -/

/-- A row of the `quotes` table: integer primary key, text, author. -/
structure Quote where
  id : Nat
  text : String
  author : String
deriving Repr, DecidableEq

/-- Snapshot of the relational store: the rows in enumeration order plus
the auto-increment counter for the next primary key. -/
structure Store where
  quotes : List Quote
  nextId : Nat
deriving Repr, DecidableEq

/-! ### JSON values and the response envelope (`standard_response`) -/

inductive Json where
  | null : Json
  | bool : Bool → Json
  | str : String → Json
  | num : Int → Json
  | arr : List Json → Json
  | obj : List (String × Json) → Json
deriving Repr

/-- `standard_response(success, data, message)`: the uniform envelope.
`none` for `data`/`message` renders as JSON `null`; `now` is the
`datetime.utcnow().isoformat()` timestamp. -/
def standard_response (success : Bool) (data : Option Json)
    (message : Option String) (now : String) : Json :=
  Json.obj
    [("success", Json.bool success),
     ("data", data.getD Json.null),
     ("message", (message.map Json.str).getD Json.null),
     ("meta", Json.obj
        [("generated_at", Json.str now),
         ("version", Json.str "v1")])]

/-- An HTTP response: status code and JSON body. -/
structure Response where
  status : Nat
  body : Json
deriving Repr

/-- The JSON payload `{"id": …, "text": …, "author": …}` used by the
quote-returning routes. -/
def quoteJson (q : Quote) : Json :=
  Json.obj [("id", Json.num q.id), ("text", Json.str q.text),
            ("author", Json.str q.author)]

/-! ### Clock -/

/-- A UTC wall-clock instant, as far as the service observes it. -/
structure DateTime where
  year : Nat
  month : Nat
  day : Nat
  hour : Nat
  minute : Nat
  second : Nat
deriving Repr, DecidableEq

def pad2 (n : Nat) : String :=
  if n < 10 then "0" ++ toString n else toString n

def pad4 (n : Nat) : String :=
  if n < 10 then "000" ++ toString n
  else if n < 100 then "00" ++ toString n
  else if n < 1000 then "0" ++ toString n
  else toString n

/-- `datetime.strftime("%Y-%m-%d")`: the date part as `YYYY-MM-DD`. -/
def formatDate (dt : DateTime) : String :=
  pad4 dt.year ++ "-" ++ pad2 dt.month ++ "-" ++ pad2 dt.day

/-! ### Selector: `get_qotd` -/

/-- `get_qotd`: hash today's date, index into the full quote list.
Returns `none` exactly when the collection is empty. -/
def get_qotd (quotes : List Quote) (today : String) : Option Quote :=
  match quotes with
  | [] => none
  | q :: rest =>
      let qs := q :: rest
      some (qs.getD (sha256 (asciiBytes today) % qs.length) q)

/-! ### Access guard: `require_api_key` -/

/-- The decorator's test: the request passes iff the `x-api-key` header
value equals `os.getenv("ADMIN_API_KEY")` (both may be absent, matching
Python's `None`). -/
def apiKeyOk (secret header : Option String) : Bool := header == secret

/-- The 401 response produced when the guard denies. -/
def unauthorizedResponse (now : String) : Response :=
  ⟨401, standard_response false none (some "Unauthorized") now⟩

/-- `require_api_key` as a handler wrapper: short-circuit on deny,
leaving the store untouched. -/
def require_api_key (secret header : Option String) (now : String)
    (handler : Store → Response × Store) (store : Store) : Response × Store :=
  if apiKeyOk secret header then handler store
  else (unauthorizedResponse now, store)

/-! ### Read-only routes -/

/-- `GET /`: the documentation payload. -/
def index (now : String) : Response :=
  ⟨200, standard_response true
    (some (Json.obj
      [("message", Json.str "Welcome to the Daily Motivational Quotes API"),
       ("endpoints", Json.obj
          [("health", Json.str "/health"),
           ("random_quote", Json.str "/api/v1/quote"),
           ("quote_of_the_day", Json.str "/api/v1/qotd"),
           ("list_quotes", Json.str "/api/v1/quotes")]),
       ("documentation", Json.str
          "https://github.com/wabo-kabrel/daily-motivational-quotes-api")]))
    none now⟩

/-- `GET /health`. -/
def health (now : String) : Response :=
  ⟨200, standard_response true
    (some (Json.obj [("status", Json.str "ok")])) none now⟩

/-- `GET /api/v1/quote`: `Quote.query.order_by(db.func.random()).first()`.
The database's random ordering is modelled by the entropy parameter
`choice`: `first()` of the shuffled table is some element of the table,
here the one at index `choice % length`. -/
def random_quote (store : Store) (choice : Nat) (now : String) : Response :=
  match store.quotes with
  | [] => ⟨404, standard_response false none (some "No quotes found") now⟩
  | q :: rest =>
      let qs := q :: rest
      let sel := qs.getD (choice % qs.length) q
      ⟨200, standard_response true (some (quoteJson sel)) none now⟩

/-- `GET /api/v1/qotd`. -/
def quote_of_the_day (store : Store) (dt : DateTime) (now : String) : Response :=
  match get_qotd store.quotes (formatDate dt) with
  | none => ⟨404, standard_response false none (some "No quotes found") now⟩
  | some q => ⟨200, standard_response true (some (quoteJson q)) none now⟩

/-- A query-string parameter as the handler sees it: missing, present
but not parseable as an integer, or an integer value. -/
inductive Param where
  | absent : Param
  | malformed : Param
  | value : Int → Param
deriving Repr, DecidableEq

/-- `int(request.args.get(name, default))`: the default when absent,
`none` (a `ValueError`) when present but malformed. -/
def parseParam (p : Param) (dflt : Int) : Option Int :=
  match p with
  | .absent => some dflt
  | .malformed => none
  | .value n => some n

/-- `GET /api/v1/quotes`: paginated list via
`Quote.query.offset(offset).limit(limit)`.  Negative values are clamped
at zero here; the backing SQL engine's treatment of negative
LIMIT/OFFSET is engine-defined and outside the service's contract. -/
def list_quotes (store : Store) (limitP offsetP : Param) (now : String) : Response :=
  match parseParam limitP 10, parseParam offsetP 0 with
  | some lim, some off =>
      let page := (store.quotes.drop off.toNat).take lim.toNat
      ⟨200, standard_response true (some (Json.arr (page.map quoteJson))) none now⟩
  | _, _ =>
      ⟨400, standard_response false none
        (some "limit and offset must be integers") now⟩

/-! ### Admin routes (handler bodies, run after the guard admits) -/

/-- Python truthiness of `data.get(field)`: false for `None` and `""`. -/
def truthyStr : Option String → Bool
  | none => false
  | some s => !s.isEmpty

/-- `POST /api/v1/quotes` body: validate, then insert with the
store-assigned primary key. -/
def create_quote (text author : Option String) (now : String)
    (store : Store) : Response × Store :=
  if !truthyStr text || !truthyStr author then
    (⟨400, standard_response false none (some "text and author are required") now⟩,
     store)
  else
    let q : Quote := ⟨store.nextId, text.getD "", author.getD ""⟩
    (⟨201, standard_response true (some (quoteJson q)) none now⟩,
     ⟨store.quotes ++ [q], store.nextId + 1⟩)

/-- The partial update applied by `update_quote`: a field overwrites
only when supplied truthy (`if text: quote.text = text`). -/
def applyPatch (q : Quote) (text author : Option String) : Quote :=
  { q with
    text := if truthyStr text then text.getD q.text else q.text,
    author := if truthyStr author then author.getD q.author else q.author }

/-- `PUT /api/v1/quotes/<quote_id>` body: `Quote.query.get` by primary
key, 404 when absent, else patch the row in place. -/
def update_quote (quote_id : Nat) (text author : Option String) (now : String)
    (store : Store) : Response × Store :=
  match store.quotes.find? (fun r => r.id == quote_id) with
  | none =>
      (⟨404, standard_response false none (some "Quote not found") now⟩, store)
  | some q =>
      let q2 := applyPatch q text author
      let quotes2 := store.quotes.map fun r => if r.id == quote_id then q2 else r
      (⟨200, standard_response true (some (quoteJson q2)) none now⟩,
       { store with quotes := quotes2 })

/-- `DELETE /api/v1/quotes/<quote_id>` body. -/
def delete_quote (quote_id : Nat) (now : String)
    (store : Store) : Response × Store :=
  match store.quotes.find? (fun r => r.id == quote_id) with
  | none =>
      (⟨404, standard_response false none (some "Quote not found") now⟩, store)
  | some q =>
      (⟨200, standard_response true
          (some (Json.obj [("id", Json.num q.id),
                           ("message", Json.str "Quote deleted")])) none now⟩,
       { store with quotes := store.quotes.eraseP (fun r => r.id == quote_id) })

/-! ### Guarded routes, as registered with Flask -/

def create_quote_route (secret header : Option String)
    (text author : Option String) (now : String) (store : Store) :
    Response × Store :=
  require_api_key secret header now (create_quote text author now) store

def update_quote_route (secret header : Option String) (quote_id : Nat)
    (text author : Option String) (now : String) (store : Store) :
    Response × Store :=
  require_api_key secret header now (update_quote quote_id text author now) store

def delete_quote_route (secret header : Option String) (quote_id : Nat)
    (now : String) (store : Store) : Response × Store :=
  require_api_key secret header now (delete_quote quote_id now) store

/-! ### Error handlers -/

/-- `@app.errorhandler(404)`. -/
def not_found (now : String) : Response :=
  ⟨404, standard_response false none (some "Resource not found") now⟩

/-- `@app.errorhandler(500)`. -/
def server_error (now : String) : Response :=
  ⟨500, standard_response false none (some "Internal server error") now⟩

/-! ### Theorems -/

lemma get_qotd_cons (q : Quote) (rest : List Quote) (today : String) :
    get_qotd (q :: rest) today =
      some ((q :: rest).getD (sha256 (asciiBytes today) % (q :: rest).length) q) :=
  rfl

/-- C1: for a non-empty collection, `get_qotd` returns the element at
index `sha256(YYYY-MM-DD) mod length` of the collection in its
enumeration order, and that index is always in `[0, length)`. -/
theorem qotd_selects_hash_index (qs : List Quote) (today : String) (h : qs ≠ []) :
    sha256 (asciiBytes today) % qs.length < qs.length ∧
    get_qotd qs today = qs.get? (sha256 (asciiBytes today) % qs.length) := by
  match qs with
  | [] => exact absurd rfl h
  | q :: rest =>
    have hlt : sha256 (asciiBytes today) % (q :: rest).length < (q :: rest).length :=
      Nat.mod_lt _ (Nat.succ_pos _)
    refine ⟨hlt, ?_⟩
    rw [get_qotd_cons, List.getD_eq_getElem?_getD, List.getElem?_eq_getElem hlt,
      List.get?_eq_getElem?, List.getElem?_eq_getElem hlt]
    rfl

theorem qotd_selects_hash_index_witness :
    (([⟨1, "Stay hungry", "Jobs"⟩] : List Quote) ≠ []) ∧
    (sha256 (asciiBytes "2026-10-12") % ([⟨1, "Stay hungry", "Jobs"⟩] : List Quote).length <
        ([⟨1, "Stay hungry", "Jobs"⟩] : List Quote).length ∧
     get_qotd [⟨1, "Stay hungry", "Jobs"⟩] "2026-10-12" =
       ([⟨1, "Stay hungry", "Jobs"⟩] : List Quote).get?
         (sha256 (asciiBytes "2026-10-12") % ([⟨1, "Stay hungry", "Jobs"⟩] : List Quote).length)) :=
  ⟨by simp, qotd_selects_hash_index [⟨1, "Stay hungry", "Jobs"⟩] "2026-10-12" (by simp)⟩

/-- C2: two `/api/v1/qotd` calls against the same store snapshot at two
instants of the same UTC calendar date yield the same quote (in
particular the same id), whatever the envelope timestamps. -/
theorem qotd_deterministic (store : Store) (d1 d2 : DateTime) (now1 now2 : String)
    (hy : d1.year = d2.year) (hm : d1.month = d2.month) (hd : d1.day = d2.day)
    (hne : store.quotes ≠ []) :
    ∃ q : Quote,
      quote_of_the_day store d1 now1 =
        ⟨200, standard_response true (some (quoteJson q)) none now1⟩ ∧
      quote_of_the_day store d2 now2 =
        ⟨200, standard_response true (some (quoteJson q)) none now2⟩ := by
  have hfmt : formatDate d1 = formatDate d2 := by
    unfold formatDate; rw [hy, hm, hd]
  match hq : store.quotes with
  | [] => exact absurd hq hne
  | q :: rest =>
    refine ⟨(q :: rest).getD (sha256 (asciiBytes (formatDate d1)) % (q :: rest).length) q,
      ?_, ?_⟩ <;>
      simp only [quote_of_the_day, hq, hfmt, get_qotd_cons]

theorem qotd_deterministic_witness :
    (DateTime.mk 2026 10 12 9 0 0).year = (DateTime.mk 2026 10 12 23 59 59).year ∧
    (DateTime.mk 2026 10 12 9 0 0).month = (DateTime.mk 2026 10 12 23 59 59).month ∧
    (DateTime.mk 2026 10 12 9 0 0).day = (DateTime.mk 2026 10 12 23 59 59).day ∧
    (Store.mk [⟨1, "a", "b"⟩, ⟨2, "c", "d"⟩] 3).quotes ≠ [] ∧
    ∃ q : Quote,
      quote_of_the_day (Store.mk [⟨1, "a", "b"⟩, ⟨2, "c", "d"⟩] 3)
          (DateTime.mk 2026 10 12 9 0 0) "t1" =
        ⟨200, standard_response true (some (quoteJson q)) none "t1"⟩ ∧
      quote_of_the_day (Store.mk [⟨1, "a", "b"⟩, ⟨2, "c", "d"⟩] 3)
          (DateTime.mk 2026 10 12 23 59 59) "t2" =
        ⟨200, standard_response true (some (quoteJson q)) none "t2"⟩ :=
  ⟨rfl, rfl, rfl, by simp,
   qotd_deterministic (Store.mk [⟨1, "a", "b"⟩, ⟨2, "c", "d"⟩] 3)
     (DateTime.mk 2026 10 12 9 0 0) (DateTime.mk 2026 10 12 23 59 59)
     "t1" "t2" rfl rfl rfl (by simp)⟩

/-- C3: `/api/v1/quote` and `/api/v1/qotd` both answer 404 with the
`success=false` envelope on an empty store, and 200 with a quote
payload on a non-empty store. -/
theorem empty_store_both_404 (store : Store) (choice : Nat) (dt : DateTime)
    (now : String) :
    (store.quotes = [] →
      random_quote store choice now =
        ⟨404, standard_response false none (some "No quotes found") now⟩ ∧
      quote_of_the_day store dt now =
        ⟨404, standard_response false none (some "No quotes found") now⟩) ∧
    (store.quotes ≠ [] →
      (∃ q, random_quote store choice now =
        ⟨200, standard_response true (some (quoteJson q)) none now⟩) ∧
      (∃ q, quote_of_the_day store dt now =
        ⟨200, standard_response true (some (quoteJson q)) none now⟩)) := by
  constructor
  · intro hq
    constructor <;> simp [random_quote, quote_of_the_day, get_qotd, hq]
  · intro hq
    match h : store.quotes with
    | [] => exact absurd h hq
    | q :: rest =>
      refine ⟨⟨(q :: rest).getD (choice % (q :: rest).length) q, ?_⟩,
              ⟨(q :: rest).getD (sha256 (asciiBytes (formatDate dt)) % (q :: rest).length) q, ?_⟩⟩ <;>
        simp [random_quote, quote_of_the_day, h, get_qotd_cons]

theorem empty_store_both_404_witness :
    ((Store.mk [] 1).quotes = [] ∧
     random_quote (Store.mk [] 1) 7 "t" =
       ⟨404, standard_response false none (some "No quotes found") "t"⟩ ∧
     quote_of_the_day (Store.mk [] 1) (DateTime.mk 2026 10 12 0 0 0) "t" =
       ⟨404, standard_response false none (some "No quotes found") "t"⟩) ∧
    ((Store.mk [⟨1, "a", "b"⟩] 2).quotes ≠ [] ∧
     (∃ q, random_quote (Store.mk [⟨1, "a", "b"⟩] 2) 7 "t" =
       ⟨200, standard_response true (some (quoteJson q)) none "t"⟩) ∧
     (∃ q, quote_of_the_day (Store.mk [⟨1, "a", "b"⟩] 2) (DateTime.mk 2026 10 12 0 0 0) "t" =
       ⟨200, standard_response true (some (quoteJson q)) none "t"⟩)) :=
  ⟨⟨rfl, (empty_store_both_404 (Store.mk [] 1) 7 (DateTime.mk 2026 10 12 0 0 0) "t").1 rfl⟩,
   ⟨by simp,
    (empty_store_both_404 (Store.mk [⟨1, "a", "b"⟩] 2) 7
      (DateTime.mk 2026 10 12 0 0 0) "t").2 (by simp)⟩⟩

/-- The message field of an envelope must be a string or null. -/
def isMessageField : Json → Bool
  | Json.null => true
  | Json.str _ => true
  | _ => false

/-- Shape check for the response contract: an object with exactly the
four fields `success` (boolean), `data`, `message` (string or null) and
`meta{generated_at, version := "v1"}`, with `generated_at` the supplied
current timestamp. -/
def isEnvelope (now : String) : Json → Bool
  | Json.obj [("success", Json.bool _), ("data", _), ("message", m),
              ("meta", Json.obj [("generated_at", Json.str g),
                                 ("version", Json.str v)])] =>
      isMessageField m && (g == now) && (v == "v1")
  | _ => false

lemma standard_response_isEnvelope (s : Bool) (d : Option Json)
    (m : Option String) (now : String) :
    isEnvelope now (standard_response s d m now) = true := by
  cases m <;> simp [standard_response, isEnvelope, isMessageField]

/-- C4: every route handler and both error handlers produce a body of
the envelope shape: exactly the fields `success`/`data`/`message`/`meta`,
with boolean `success`, string-or-null `message`, `meta.generated_at`
the current UTC timestamp and `meta.version = "v1"`. -/
theorem all_responses_enveloped (now : String) (store : Store) (choice : Nat)
    (dt : DateTime) (limitP offsetP : Param)
    (secret header text author : Option String) (qid : Nat) :
    isEnvelope now (index now).body = true ∧
    isEnvelope now (health now).body = true ∧
    isEnvelope now (random_quote store choice now).body = true ∧
    isEnvelope now (quote_of_the_day store dt now).body = true ∧
    isEnvelope now (list_quotes store limitP offsetP now).body = true ∧
    isEnvelope now (create_quote_route secret header text author now store).1.body = true ∧
    isEnvelope now (update_quote_route secret header qid text author now store).1.body = true ∧
    isEnvelope now (delete_quote_route secret header qid now store).1.body = true ∧
    isEnvelope now (not_found now).body = true ∧
    isEnvelope now (server_error now).body = true := by
  have hguard : ∀ (handler : Store → Response × Store),
      (∀ st, isEnvelope now (handler st).1.body = true) →
      isEnvelope now (require_api_key secret header now handler store).1.body = true := by
    intro handler hh
    unfold require_api_key
    split
    · exact hh store
    · exact standard_response_isEnvelope false none (some "Unauthorized") now
  refine ⟨standard_response_isEnvelope _ _ _ _,
          standard_response_isEnvelope _ _ _ _, ?_, ?_, ?_, ?_, ?_, ?_,
          standard_response_isEnvelope _ _ _ _,
          standard_response_isEnvelope _ _ _ _⟩
  · cases h : store.quotes <;>
      simp [random_quote, h, standard_response_isEnvelope]
  · unfold quote_of_the_day
    cases h : get_qotd store.quotes (formatDate dt) <;>
      simp [standard_response_isEnvelope]
  · unfold list_quotes
    cases hl : parseParam limitP 10 <;> cases ho : parseParam offsetP 0 <;>
      simp [standard_response_isEnvelope]
  · refine hguard _ fun st => ?_
    unfold create_quote
    split <;> simp [standard_response_isEnvelope]
  · refine hguard _ fun st => ?_
    unfold update_quote
    cases h : st.quotes.find? (fun r => r.id == qid) <;>
      simp [standard_response_isEnvelope]
  · refine hguard _ fun st => ?_
    unfold delete_quote
    cases h : st.quotes.find? (fun r => r.id == qid) <;>
      simp [standard_response_isEnvelope]

/-- C5: with the admin secret configured, a request whose `x-api-key`
header is absent or differs from it gets 401 with the `success=false`
envelope and message "Unauthorized", on each guarded route. -/
theorem wrong_key_unauthorized (s : String) (header : Option String)
    (text author : Option String) (qid : Nat) (now : String) (store : Store)
    (hdr : header ≠ some s) :
    (create_quote_route (some s) header text author now store).1 =
      ⟨401, standard_response false none (some "Unauthorized") now⟩ ∧
    (update_quote_route (some s) header qid text author now store).1 =
      ⟨401, standard_response false none (some "Unauthorized") now⟩ ∧
    (delete_quote_route (some s) header qid now store).1 =
      ⟨401, standard_response false none (some "Unauthorized") now⟩ := by
  refine ⟨?_, ?_, ?_⟩ <;>
    simp [create_quote_route, update_quote_route, delete_quote_route,
      require_api_key, apiKeyOk, unauthorizedResponse, hdr]

theorem wrong_key_unauthorized_witness :
    ((none : Option String) ≠ some "changeme123" ∧
     (create_quote_route (some "changeme123") none (some "x") (some "y") "t"
        (Store.mk [] 1)).1 =
       ⟨401, standard_response false none (some "Unauthorized") "t"⟩ ∧
     (update_quote_route (some "changeme123") none 1 (some "x") none "t"
        (Store.mk [] 1)).1 =
       ⟨401, standard_response false none (some "Unauthorized") "t"⟩ ∧
     (delete_quote_route (some "changeme123") none 1 "t" (Store.mk [] 1)).1 =
       ⟨401, standard_response false none (some "Unauthorized") "t"⟩) ∧
    ((some "wrong" : Option String) ≠ some "changeme123" ∧
     (create_quote_route (some "changeme123") (some "wrong") (some "x") (some "y") "t"
        (Store.mk [] 1)).1 =
       ⟨401, standard_response false none (some "Unauthorized") "t"⟩ ∧
     (update_quote_route (some "changeme123") (some "wrong") 1 (some "x") none "t"
        (Store.mk [] 1)).1 =
       ⟨401, standard_response false none (some "Unauthorized") "t"⟩ ∧
     (delete_quote_route (some "changeme123") (some "wrong") 1 "t" (Store.mk [] 1)).1 =
       ⟨401, standard_response false none (some "Unauthorized") "t"⟩) :=
  ⟨⟨by simp, wrong_key_unauthorized "changeme123" none (some "x") (some "y") 1 "t"
      (Store.mk [] 1) (by simp)⟩,
   ⟨by simp, wrong_key_unauthorized "changeme123" (some "wrong") (some "x") (some "y") 1 "t"
      (Store.mk [] 1) (by simp)⟩⟩

/-- C6: with the correct admin key, a POST missing a truthy (non-empty)
`text` or `author` answers 400 and leaves the store unchanged; with both
supplied non-empty it answers 201 carrying the store-assigned id, text
and author, and appends exactly that record. -/
theorem create_validates_and_persists (secret : Option String)
    (text author : Option String) (now : String) (store : Store) :
    ((truthyStr text = false ∨ truthyStr author = false) →
      create_quote_route secret secret text author now store =
        (⟨400, standard_response false none (some "text and author are required") now⟩,
         store)) ∧
    (∀ t a : String, text = some t → author = some a → t ≠ "" → a ≠ "" →
      create_quote_route secret secret text author now store =
        (⟨201, standard_response true (some (quoteJson ⟨store.nextId, t, a⟩)) none now⟩,
         ⟨store.quotes ++ [⟨store.nextId, t, a⟩], store.nextId + 1⟩)) := by
  constructor
  · intro hbad
    rcases hbad with hb | hb <;>
      simp [create_quote_route, require_api_key, apiKeyOk, create_quote, hb]
  · intro t a ht ha htne hane
    subst ht; subst ha
    simp [create_quote_route, require_api_key, apiKeyOk, create_quote,
      truthyStr, String.isEmpty_iff, htne, hane]

theorem create_validates_and_persists_witness :
    ((truthyStr none = false ∨ truthyStr (some "Ann") = false) ∧
     create_quote_route (some "k") (some "k") none (some "Ann") "t"
        (Store.mk [⟨1, "a", "b"⟩] 2) =
       (⟨400, standard_response false none (some "text and author are required") "t"⟩,
        Store.mk [⟨1, "a", "b"⟩] 2)) ∧
    ((some "New" : Option String) = some "New" ∧
     (some "Ann" : Option String) = some "Ann" ∧ "New" ≠ "" ∧ "Ann" ≠ "" ∧
     create_quote_route (some "k") (some "k") (some "New") (some "Ann") "t"
        (Store.mk [⟨1, "a", "b"⟩] 2) =
       (⟨201, standard_response true (some (quoteJson ⟨2, "New", "Ann"⟩)) none "t"⟩,
        Store.mk [⟨1, "a", "b"⟩, ⟨2, "New", "Ann"⟩] 3)) :=
  ⟨⟨Or.inl rfl,
    (create_validates_and_persists (some "k") none (some "Ann") "t"
      (Store.mk [⟨1, "a", "b"⟩] 2)).1 (Or.inl rfl)⟩,
   ⟨rfl, rfl, by simp, by simp,
    (create_validates_and_persists (some "k") (some "New") (some "Ann") "t"
      (Store.mk [⟨1, "a", "b"⟩] 2)).2 "New" "Ann" rfl rfl (by simp) (by simp)⟩⟩

/-- C10: on every guarded route a wrong or missing key short-circuits
before the handler body: the response is the 401 envelope whatever the
body or path id (even ones that would otherwise draw 400 or 404), and
the store is left exactly as it was. -/
theorem guard_short_circuits (secret header : Option String)
    (text author : Option String) (qid : Nat) (now : String) (store : Store)
    (hdr : header ≠ secret) :
    create_quote_route secret header text author now store =
      (unauthorizedResponse now, store) ∧
    update_quote_route secret header qid text author now store =
      (unauthorizedResponse now, store) ∧
    delete_quote_route secret header qid now store =
      (unauthorizedResponse now, store) := by
  refine ⟨?_, ?_, ?_⟩ <;>
    simp [create_quote_route, update_quote_route, delete_quote_route,
      require_api_key, apiKeyOk, hdr]

theorem guard_short_circuits_witness :
    (some "wrong" : Option String) ≠ some "changeme123" ∧
    (create_quote_route (some "changeme123") (some "wrong") none none "t"
        (Store.mk [⟨1, "a", "b"⟩] 2) =
      (unauthorizedResponse "t", Store.mk [⟨1, "a", "b"⟩] 2) ∧
     update_quote_route (some "changeme123") (some "wrong") 99 none none "t"
        (Store.mk [⟨1, "a", "b"⟩] 2) =
      (unauthorizedResponse "t", Store.mk [⟨1, "a", "b"⟩] 2) ∧
     delete_quote_route (some "changeme123") (some "wrong") 99 "t"
        (Store.mk [⟨1, "a", "b"⟩] 2) =
      (unauthorizedResponse "t", Store.mk [⟨1, "a", "b"⟩] 2)) :=
  ⟨by simp,
   guard_short_circuits (some "changeme123") (some "wrong") none none 99 "t"
     (Store.mk [⟨1, "a", "b"⟩] 2) (by simp)⟩

/-- C7: a limit or offset that fails integer parsing draws 400;
otherwise (defaults 10 and 0 when absent) the route answers 200 with the
page `drop offset |> take limit`, whose length is exactly
`min limit (count - offset)` (truncated subtraction, i.e.
`min(limit, max(0, count - offset))`), stated for non-negative
parameters. -/
theorem list_pagination (store : Store) (limitP offsetP : Param) (now : String) :
    ((parseParam limitP 10 = none ∨ parseParam offsetP 0 = none) →
      (list_quotes store limitP offsetP now).status = 400) ∧
    (∀ lim off : Int, parseParam limitP 10 = some lim →
      parseParam offsetP 0 = some off → 0 ≤ lim → 0 ≤ off →
      list_quotes store limitP offsetP now =
        ⟨200, standard_response true
          (some (Json.arr (((store.quotes.drop off.toNat).take lim.toNat).map quoteJson)))
          none now⟩ ∧
      ((store.quotes.drop off.toNat).take lim.toNat).length =
        min lim.toNat (store.quotes.length - off.toNat)) := by
  constructor
  · intro hbad
    rcases hbad with hb | hb
    · simp [list_quotes, hb]
    · cases hl : parseParam limitP 10 <;> simp [list_quotes, hl, hb]
  · intro lim off hl ho _ _
    refine ⟨by simp [list_quotes, hl, ho], ?_⟩
    simp [List.length_take, List.length_drop]

theorem list_pagination_witness :
    (parseParam Param.malformed 10 = none ∨ parseParam (Param.value 0) 0 = none) ∧
    (list_quotes (Store.mk [⟨1, "a", "A"⟩, ⟨2, "b", "B"⟩, ⟨3, "c", "C"⟩,
        ⟨4, "d", "D"⟩, ⟨5, "e", "E"⟩] 6) Param.malformed (Param.value 0) "t").status = 400 ∧
    (((Store.mk [⟨1, "a", "A"⟩, ⟨2, "b", "B"⟩, ⟨3, "c", "C"⟩, ⟨4, "d", "D"⟩,
        ⟨5, "e", "E"⟩] 6 : Store).quotes.drop (0 : Int).toNat).take (2 : Int).toNat).length =
      min (2 : Int).toNat ((Store.mk [⟨1, "a", "A"⟩, ⟨2, "b", "B"⟩, ⟨3, "c", "C"⟩,
        ⟨4, "d", "D"⟩, ⟨5, "e", "E"⟩] 6 : Store).quotes.length - (0 : Int).toNat) ∧
    (((Store.mk [⟨1, "a", "A"⟩, ⟨2, "b", "B"⟩, ⟨3, "c", "C"⟩, ⟨4, "d", "D"⟩,
        ⟨5, "e", "E"⟩] 6 : Store).quotes.drop (4 : Int).toNat).take (10 : Int).toNat).length = 1 ∧
    (((Store.mk [⟨1, "a", "A"⟩, ⟨2, "b", "B"⟩, ⟨3, "c", "C"⟩, ⟨4, "d", "D"⟩,
        ⟨5, "e", "E"⟩] 6 : Store).quotes.drop (10 : Int).toNat).take (10 : Int).toNat).length = 0 :=
  ⟨Or.inl rfl,
   (list_pagination (Store.mk [⟨1, "a", "A"⟩, ⟨2, "b", "B"⟩, ⟨3, "c", "C"⟩,
      ⟨4, "d", "D"⟩, ⟨5, "e", "E"⟩] 6) Param.malformed (Param.value 0) "t").1 (Or.inl rfl),
   ((list_pagination (Store.mk [⟨1, "a", "A"⟩, ⟨2, "b", "B"⟩, ⟨3, "c", "C"⟩,
      ⟨4, "d", "D"⟩, ⟨5, "e", "E"⟩] 6) (Param.value 2) (Param.value 0) "t").2
      2 0 rfl rfl (by simp) (by simp)).2,
   by decide, by decide⟩

/-- C8: a PUT on an existing id with the correct key answers 200; the
stored record keeps its id, keeps its text when no `text` field was
supplied, keeps its author when no `author` field was supplied, and
every other record is untouched. -/
theorem update_preserves_absent_fields (secret : Option String) (qid : Nat)
    (text author : Option String) (now : String) (store : Store) (q : Quote)
    (hfind : store.quotes.find? (fun r => r.id == qid) = some q) :
    update_quote_route secret secret qid text author now store =
      (⟨200, standard_response true (some (quoteJson (applyPatch q text author))) none now⟩,
       ⟨store.quotes.map (fun r => if r.id == qid then applyPatch q text author else r),
        store.nextId⟩) ∧
    (applyPatch q text author).id = q.id ∧
    (text = none → (applyPatch q text author).text = q.text) ∧
    (author = none → (applyPatch q text author).author = q.author) := by
  refine ⟨?_, rfl, ?_, ?_⟩
  · simp [update_quote_route, require_api_key, apiKeyOk, update_quote, hfind]
  · intro h; subst h; simp [applyPatch, truthyStr]
  · intro h; subst h; simp [applyPatch, truthyStr]

theorem update_preserves_absent_fields_witness :
    (Store.mk [⟨1, "old text", "Ann"⟩, ⟨2, "other", "Bob"⟩] 3 : Store).quotes.find?
        (fun r => r.id == 1) = some ⟨1, "old text", "Ann"⟩ ∧
    (update_quote_route (some "k") (some "k") 1 (some "new text") none "t"
        (Store.mk [⟨1, "old text", "Ann"⟩, ⟨2, "other", "Bob"⟩] 3) =
      (⟨200, standard_response true
          (some (quoteJson (applyPatch ⟨1, "old text", "Ann"⟩ (some "new text") none)))
          none "t"⟩,
       ⟨(Store.mk [⟨1, "old text", "Ann"⟩, ⟨2, "other", "Bob"⟩] 3 : Store).quotes.map
          (fun r => if r.id == 1 then applyPatch ⟨1, "old text", "Ann"⟩ (some "new text") none
                    else r), 3⟩) ∧
     (applyPatch ⟨1, "old text", "Ann"⟩ (some "new text") none).id = 1 ∧
     ((some "new text" : Option String) = none →
       (applyPatch ⟨1, "old text", "Ann"⟩ (some "new text") none).text = "old text") ∧
     ((none : Option String) = none →
       (applyPatch ⟨1, "old text", "Ann"⟩ (some "new text") none).author = "Ann")) :=
  ⟨by decide,
   update_preserves_absent_fields (some "k") 1 (some "new text") none "t"
     (Store.mk [⟨1, "old text", "Ann"⟩, ⟨2, "other", "Bob"⟩] 3)
     ⟨1, "old text", "Ann"⟩ (by decide)⟩

/-! ### Mutating operations as an abstract transition system -/

/-- The three store mutations an admin can perform. -/
inductive Op where
  | create : Option String → Option String → Op
  | update : Nat → Option String → Option String → Op
  | delete : Nat → Op
deriving Repr, DecidableEq

/-- The store transition of each admin handler body (the envelope
timestamp does not influence the stored state). -/
def applyOp (store : Store) : Op → Store
  | .create t a => (create_quote t a "" store).2
  | .update qid t a => (update_quote qid t a "" store).2
  | .delete qid => (delete_quote qid "" store).2

/-- The documented data-model invariant: every persisted quote has
non-empty text and author. -/
def storeInv (s : Store) : Prop :=
  ∀ q ∈ s.quotes, q.text ≠ "" ∧ q.author ≠ ""

lemma truthyStr_getD_ne (o : Option String) (d : String) (h : truthyStr o = true) :
    o.getD d ≠ "" := by
  match o with
  | none => simp [truthyStr] at h
  | some s =>
    intro hs
    simp only [Option.getD_some] at hs
    subst hs
    exact absurd h (by decide)

lemma storeInv_applyOp (st : Store) (op : Op) (h : storeInv st) :
    storeInv (applyOp st op) := by
  match op with
  | .create t a =>
    simp only [applyOp]
    unfold create_quote
    split
    · exact h
    · rename_i hcond
      simp only [Bool.or_eq_true, Bool.not_eq_true', not_or,
        Bool.not_eq_false] at hcond
      intro q hq
      rcases List.mem_append.1 hq with hmem | hmem
      · exact h q hmem
      · rcases List.mem_singleton.1 hmem with rfl
        exact ⟨truthyStr_getD_ne t "" hcond.1, truthyStr_getD_ne a "" hcond.2⟩
  | .update qid t a =>
    simp only [applyOp]
    unfold update_quote
    cases hfind : st.quotes.find? (fun r => r.id == qid) with
    | none => exact h
    | some q =>
      have hqmem : q ∈ st.quotes := List.mem_of_find?_eq_some hfind
      intro r hr
      simp only [List.mem_map] at hr
      rcases hr with ⟨r0, hr0, hrep⟩
      by_cases hid : (r0.id == qid) = true
      · rw [if_pos hid] at hrep
        subst hrep
        constructor
        · show (if truthyStr t then t.getD q.text else q.text) ≠ ""
          split
          · rename_i htr; exact truthyStr_getD_ne t q.text htr
          · exact (h q hqmem).1
        · show (if truthyStr a then a.getD q.author else q.author) ≠ ""
          split
          · rename_i htr; exact truthyStr_getD_ne a q.author htr
          · exact (h q hqmem).2
      · rw [if_neg hid] at hrep
        subst hrep
        exact h r0 hr0
  | .delete qid =>
    simp only [applyOp]
    unfold delete_quote
    cases hfind : st.quotes.find? (fun r => r.id == qid) with
    | none => exact h
    | some q =>
      intro r hr
      exact h r ((List.eraseP_sublist st.quotes).mem hr)

lemma applyOp_ids_sublist (st : Store) (op : Op) :
    ((applyOp st op).quotes.map Quote.id).Sublist
      (st.quotes.map Quote.id ++ [st.nextId]) := by
  match op with
  | .create t a =>
    simp only [applyOp]
    unfold create_quote
    split
    · exact List.sublist_append_left _ _
    · simp
  | .update qid t a =>
    simp only [applyOp]
    unfold update_quote
    cases hfind : st.quotes.find? (fun r => r.id == qid) with
    | none => exact List.sublist_append_left _ _
    | some q =>
      have hqid0 := List.find?_some hfind
      have hqid : q.id = qid := eq_of_beq hqid0
      have hmap : (st.quotes.map fun r =>
          if r.id == qid then applyPatch q t a else r).map Quote.id =
          st.quotes.map Quote.id := by
        rw [List.map_map]
        refine List.map_congr_left fun r _ => ?_
        by_cases hid : r.id = qid
        · simp [Function.comp_apply, hid, applyPatch, hqid]
        · simp [Function.comp_apply, hid]
      exact hmap ▸ List.sublist_append_left _ _
  | .delete qid =>
    simp only [applyOp]
    unfold delete_quote
    cases hfind : st.quotes.find? (fun r => r.id == qid) with
    | none => exact List.sublist_append_left _ _
    | some q =>
      exact ((List.eraseP_sublist st.quotes).map Quote.id).trans
        (List.sublist_append_left _ _)

/-- C9: starting from a store satisfying the data-model invariant, any
sequence of create/update/delete operations preserves it; and a single
operation never rewrites the id of a surviving record — the ids after
one step form a sublist of the previous ids extended by the fresh
auto-increment id (updates keep the id list unchanged entirely). -/
theorem crud_preserves_invariants (store : Store) (ops : List Op)
    (hinv : storeInv store) :
    storeInv (ops.foldl applyOp store) ∧
    (∀ (st : Store) (op : Op),
      ((applyOp st op).quotes.map Quote.id).Sublist
        (st.quotes.map Quote.id ++ [st.nextId])) ∧
    (∀ (st : Store) (qid : Nat) (t a : Option String),
      (applyOp st (Op.update qid t a)).quotes.map Quote.id =
        st.quotes.map Quote.id) := by
  refine ⟨?_, applyOp_ids_sublist, ?_⟩
  · induction ops generalizing store with
    | nil => exact hinv
    | cons op rest ih => exact ih (applyOp store op) (storeInv_applyOp store op hinv)
  · intro st qid t a
    simp only [applyOp]
    unfold update_quote
    cases hfind : st.quotes.find? (fun r => r.id == qid) with
    | none => rfl
    | some q =>
      have hqid0 := List.find?_some hfind
      have hqid : q.id = qid := eq_of_beq hqid0
      rw [List.map_map]
      refine List.map_congr_left fun r _ => ?_
      by_cases hid : r.id = qid
      · simp [Function.comp_apply, hid, applyPatch, hqid]
      · simp [Function.comp_apply, hid]

theorem crud_preserves_invariants_witness :
    storeInv (Store.mk [⟨1, "a", "A"⟩, ⟨2, "b", "B"⟩] 3) ∧
    storeInv
      ([Op.create (some "c") (some "C"), Op.update 1 (some "z") none,
        Op.delete 2].foldl applyOp (Store.mk [⟨1, "a", "A"⟩, ⟨2, "b", "B"⟩] 3)) :=
  ⟨by simp [storeInv],
   (crud_preserves_invariants (Store.mk [⟨1, "a", "A"⟩, ⟨2, "b", "B"⟩] 3)
     [Op.create (some "c") (some "C"), Op.update 1 (some "z") none, Op.delete 2]
     (by simp [storeInv])).1⟩

end Motivation
